import Mathlib

/-!
Verification development for the slide-deck inconsistency analyzer
(`src/main.py`).  The Python program is shallowly embedded: JSON data is the
inductive `JValue`, Python exceptions become the `Except PyErr` monad, the
external black boxes (OCR engine, Gemini client, `json.loads`) are
parameters, and the file-system cache is an association list from cache
paths to stored files.  Machine-level hashing (`hashlib.md5`) is embedded
over byte lists with arithmetic modulo 2^32.
-/

/-- JSON-shaped data, the value space of everything the analyzer passes
around: cache entries, analysis results, issue fields.  Numbers are modelled
as integers (no claim depends on float formatting). -/
inductive JValue where
  | jnull : JValue
  | jbool : Bool → JValue
  | jnum : Int → JValue
  | jstr : String → JValue
  | jarr : List JValue → JValue
  | jobj : List (String × JValue) → JValue

/-- Python exceptions that the embedded code can raise. -/
inductive PyErr where
  | typeError
  | attributeError
  | indexError
  | keyError
  | fileNotFound
  | jsonDecodeError
deriving DecidableEq, Repr

/-- Python truthiness of a JSON value (`bool(x)`). -/
def truthy : JValue → Bool
  | .jnull => false
  | .jbool b => b
  | .jnum n => n != 0
  | .jstr s => s != ""
  | .jarr xs => !xs.isEmpty
  | .jobj kvs => !kvs.isEmpty

/-- First-match lookup in a JSON object (Python dict indexing/`get`). -/
def jlookup (kvs : List (String × JValue)) (k : String) : Option JValue :=
  (kvs.find? (fun kv => kv.1 == k)).map (fun kv => kv.2)

mutual

/-- Python `repr` of a JSON value (used by `str` for containers).  String
escaping inside container reprs is not reproduced; only determinism and
injectivity-irrelevant shape matter to the claims. -/
def pyRepr : JValue → String
  | .jnull => ("None")
  | .jbool true => ("True")
  | .jbool false => ("False")
  | .jnum n => toString n
  | .jstr s => String.singleton (Char.ofNat 39) ++ s ++ String.singleton (Char.ofNat 39)
  | .jarr xs => ("[") ++ pyReprList xs ++ ("]")
  | .jobj kvs => ("\x7b") ++ pyReprObj kvs ++ ("\x7d")

/-- Comma-separated reprs of list elements. -/
def pyReprList : List JValue → String
  | [] => ("")
  | [x] => pyRepr x
  | x :: y :: xs => pyRepr x ++ (", ") ++ pyReprList (y :: xs)

/-- Comma-separated reprs of dict items. -/
def pyReprObj : List (String × JValue) → String
  | [] => ("")
  | [kv] => String.singleton (Char.ofNat 39) ++ kv.1 ++ String.singleton (Char.ofNat 39) ++ (": ") ++ pyRepr kv.2
  | kv :: kv2 :: kvs => String.singleton (Char.ofNat 39) ++ kv.1 ++ String.singleton (Char.ofNat 39) ++ (": ") ++ pyRepr kv.2 ++ (", ") ++ pyReprObj (kv2 :: kvs)

end

/-- Python `str()` coercion, as applied by f-string interpolation. -/
def pyStr : JValue → String
  | .jstr s => s
  | v => pyRepr v

/-- Python membership test `k in v` for a string needle: dict keys, list
elements, or substring; raises `TypeError` on non-container values. -/
def pyContains (k : String) : JValue → Except PyErr Bool
  | .jobj kvs => .ok (kvs.any (fun kv => kv.1 == k))
  | .jarr xs => .ok (xs.any (fun x => match x with
      | .jstr s => s == k
      | _ => false))
  | .jstr s => .ok (decide (k.data <:+: s.data))
  | _ => .error .typeError

/-- Python subscript `v[k]` with a string key: dict lookup (KeyError when
absent); lists and strings reject string indices with `TypeError`. -/
def pyIndex (v : JValue) (k : String) : Except PyErr JValue :=
  match v with
  | .jobj kvs =>
    match jlookup kvs k with
    | some x => .ok x
    | none => .error .keyError
  | _ => .error .typeError

/-- Python `v.get(k, default)`: only dicts expose `get`; every other value
raises `AttributeError`. -/
def pyGet (v : JValue) (k : String) (dflt : JValue) : Except PyErr JValue :=
  match v with
  | .jobj kvs => .ok ((jlookup kvs k).getD dflt)
  | _ => .error .attributeError

/-- Python `len(v)`; raises `TypeError` on unsized values. -/
def pyLen : JValue → Except PyErr Nat
  | .jarr xs => .ok xs.length
  | .jstr s => .ok s.length
  | .jobj kvs => .ok kvs.length
  | _ => .error .typeError

/-- Python iteration `for x in v`: lists yield elements, strings yield
one-character strings, dicts yield their keys; otherwise `TypeError`. -/
def pyIter : JValue → Except PyErr (List JValue)
  | .jarr xs => .ok xs
  | .jstr s => .ok (s.data.map (fun c => .jstr (String.singleton c)))
  | .jobj kvs => .ok (kvs.map (fun kv => .jstr kv.1))
  | _ => .error .typeError

/-- Whitespace characters recognized by Python `str.strip`/`str.split`. -/
def pyIsSpaceChar (c : Char) : Bool :=
  c == ' ' || c == '\t' || c == '\n' || c == '\r' || c == '\x0B' || c == '\x0C'

/-- Truthiness of `s.strip()`: the string has some non-whitespace character. -/
def stripNonempty (s : String) : Bool :=
  s.data.any (fun c => !pyIsSpaceChar c)

/-- Python `s.strip()`. -/
def pyStrip (s : String) : String :=
  String.mk (((s.data.dropWhile pyIsSpaceChar).reverse.dropWhile pyIsSpaceChar).reverse)

/-- Whitespace-splitting core of `textwrap`: accumulates the current word
(reversed) and emits maximal non-whitespace runs. -/
def pyWordsAux : List Char → List Char → List String
  | [], acc => if acc.isEmpty then [] else [String.mk acc.reverse]
  | c :: cs, acc =>
    if pyIsSpaceChar c then
      if acc.isEmpty then pyWordsAux cs [] else String.mk acc.reverse :: pyWordsAux cs []
    else pyWordsAux cs (c :: acc)

/-- The whitespace-separated words of a string (Python `s.split()`). -/
def pyWords (s : String) : List String := pyWordsAux s.data []

/-- Greedy line packing used to model `textwrap.wrap`: words are joined with
single spaces while they fit in `width`; an overlong word occupies its own
line (line-break placement inside overlong words is a presentation detail
the claims do not depend on). -/
def packAux (width : Nat) (cur : String) : List String → List String
  | [] => [cur]
  | w :: ws =>
    if cur.length + 1 + w.length ≤ width then packAux width (cur ++ (" ") ++ w) ws
    else cur :: packAux width w ws

/-- Model of Python `textwrap.wrap(s, width)`: empty exactly when `s` has no
words (this is the property the renderer's `[0]` indexing depends on). -/
def textwrapWrap (s : String) (width : Nat) : List String :=
  match pyWords s with
  | [] => []
  | w :: ws => packAux width w ws

/-- Head of a wrapped-line list, raising `IndexError` on `[]` exactly like
Python's `wrapped[0]`. -/
def headE : List String → Except PyErr String
  | [] => .error .indexError
  | h :: _ => .ok h

/-- String repetition (`s * n` with the factors swapped). -/
def strRepeat (s : String) (n : Nat) : String :=
  String.join (List.replicate n s)

/-- Python `s.center(width, fill)`; the margin splits with the smaller half
on the left. -/
def pyCenterWith (s : String) (width : Nat) (fill : Char) : String :=
  if width ≤ s.length then s
  else
    String.mk (List.replicate ((width - s.length) / 2) fill) ++ s ++
      String.mk (List.replicate (width - s.length - (width - s.length) / 2) fill)

/-- Python `s.center(width)` with the default space fill. -/
def pyCenter (s : String) (width : Nat) : String := pyCenterWith s width ' '

/-! ## MD5 (`hashlib.md5`), over byte lists with arithmetic modulo 2^32 -/

/-- 2^32, the word modulus of MD5. -/
def M32 : Nat := 4294967296

/-- Addition modulo 2^32. -/
def add32 (a b : Nat) : Nat := (a + b) % M32

/-- Bitwise complement of a 32-bit word. -/
def not32 (a : Nat) : Nat := (M32 - 1) - a % M32

/-- Left rotation of a 32-bit word. -/
def rotl32 (x s : Nat) : Nat := ((x % M32) <<< s) % M32 ||| ((x % M32) >>> (32 - s))

/-- MD5 round constants (floor(abs(sin(i+1)) * 2^32)). -/
def md5K : List Nat :=
  [3614090360, 3905402710, 606105819, 3250441966, 4118548399, 1200080426,
   2821735955, 4249261313, 1770035416, 2336552879, 4294925233, 2304563134,
   1804603682, 4254626195, 2792965006, 1236535329, 4129170786, 3225465664,
   643717713, 3921069994, 3593408605, 38016083, 3634488961, 3889429448,
   568446438, 3275163606, 4107603335, 1163531501, 2850285829, 4243563512,
   1735328473, 2368359562, 4294588738, 2272392833, 1839030562, 4259657740,
   2763975236, 1272893353, 4139469664, 3200236656, 681279174, 3936430074,
   3572445317, 76029189, 3654602809, 3873151461, 530742520, 3299628645,
   4096336452, 1126891415, 2878612391, 4237533241, 1700485571, 2399980690,
   4293915773, 2240044497, 1873313359, 4264355552, 2734768916, 1309151649,
   4149444226, 3174756917, 718787259, 3951481745]

/-- MD5 per-round left-rotation amounts. -/
def md5S : List Nat :=
  [7, 12, 17, 22, 7, 12, 17, 22, 7, 12, 17, 22, 7, 12, 17, 22,
   5, 9, 14, 20, 5, 9, 14, 20, 5, 9, 14, 20, 5, 9, 14, 20,
   4, 11, 16, 23, 4, 11, 16, 23, 4, 11, 16, 23, 4, 11, 16, 23,
   6, 10, 15, 21, 6, 10, 15, 21, 6, 10, 15, 21, 6, 10, 15, 21]

/-- Little-endian byte decomposition of a number, `k` bytes wide. -/
def leBytes : Nat → Nat → List Nat
  | 0, _ => []
  | k + 1, x => (x % 256) :: leBytes k (x / 256)

/-- MD5 padding: append 0x80, zero-fill to 56 mod 64, then the 64-bit
little-endian bit length. -/
def md5Pad (msg : List Nat) : List Nat :=
  msg ++ 128 :: List.replicate ((56 + 64 - (msg.length + 1) % 64) % 64) 0 ++
    leBytes 8 (msg.length * 8)

/-- Split a byte list into 64-byte chunks (fuel-driven, called on padded
input whose length is a multiple of 64). -/
def chunk64 : Nat → List Nat → List (List Nat)
  | 0, _ => []
  | _, [] => []
  | fuel + 1, l => l.take 64 :: chunk64 fuel (l.drop 64)

/-- The i-th little-endian 32-bit word of a 64-byte chunk. -/
def leWord (chunk : List Nat) (i : Nat) : Nat :=
  chunk.getD (4 * i) 0 + 256 * chunk.getD (4 * i + 1) 0 +
    65536 * chunk.getD (4 * i + 2) 0 + 16777216 * chunk.getD (4 * i + 3) 0

/-- One of the 64 MD5 rounds. -/
def md5Step (w : Nat → Nat) (st : Nat × Nat × Nat × Nat) (i : Nat) :
    Nat × Nat × Nat × Nat :=
  let a := st.1
  let b := st.2.1
  let c := st.2.2.1
  let d := st.2.2.2
  let fg : Nat × Nat :=
    if i < 16 then ((b &&& c) ||| (not32 b &&& d), i)
    else if i < 32 then ((d &&& b) ||| (not32 d &&& c), (5 * i + 1) % 16)
    else if i < 48 then (b ^^^ c ^^^ d, (3 * i + 5) % 16)
    else (c ^^^ (b ||| not32 d), (7 * i) % 16)
  let tmp := add32 (add32 (add32 a fg.1) (md5K.getD i 0)) (w fg.2)
  (d, add32 b (rotl32 tmp (md5S.getD i 0)), b, c)

/-- Compress one 64-byte chunk into the running state. -/
def md5Chunk (st : Nat × Nat × Nat × Nat) (chunk : List Nat) :
    Nat × Nat × Nat × Nat :=
  let r := (List.range 64).foldl (md5Step (leWord chunk)) st
  (add32 st.1 r.1, add32 st.2.1 r.2.1, add32 st.2.2.1 r.2.2.1,
   add32 st.2.2.2 r.2.2.2)

/-- The MD5 initialization vector. -/
def md5Init : Nat × Nat × Nat × Nat :=
  (1732584193, 4023233417, 2562383102, 271733878)

/-- Lowercase hexadecimal digit. -/
def hexDigit (n : Nat) : Char :=
  if n < 10 then Char.ofNat (48 + n) else Char.ofNat (87 + n % 16)

/-- Two lowercase hex digits of a byte. -/
def byteHex (b : Nat) : String :=
  String.mk [hexDigit (b / 16 % 16), hexDigit (b % 16)]

/-- Hex rendering of a 32-bit word, little-endian byte order as in MD5
digests. -/
def wordLEHex (w : Nat) : String :=
  String.join ((leBytes 4 w).map byteHex)

/-- Model of `get_file_hash` (src/main.py lines 32-38): the MD5 hex digest
of the file's bytes. -/
def get_file_hash (fileBytes : List Nat) : String :=
  let padded := md5Pad fileBytes
  let st := (chunk64 padded.length padded).foldl md5Chunk md5Init
  wordLEHex st.1 ++ wordLEHex st.2.1 ++ wordLEHex st.2.2.1 ++ wordLEHex st.2.2.2

set_option maxRecDepth 100000 in
/-- MD5 test vector: the empty input. -/
theorem md5_empty_vector : get_file_hash [] = ("d41d8cd98f00b204e9800998ecf8427e") := by
  decide

set_option maxRecDepth 100000 in
/-- MD5 test vector: the bytes of "abc". -/
theorem md5_abc_vector : get_file_hash [97, 98, 99] = ("900150983cd24fb0d6963f7d28e17f72") := by
  decide

/-! ## Content cache (`read_from_cache` / `write_to_cache`, src/main.py 40-49) -/

/-- The cache directory constant (src/main.py line 19). -/
def CACHE_DIR : String := (".cache")

/-- Python `os.path.basename` for slash-separated paths. -/
def pyBasename (p : String) : String :=
  (p.split (fun c => c == '/')).getLastD p

/-- The cache path computed by `main` (src/main.py line 219):
`.cache/<basename>_<md5 hex>.json`. -/
def cache_path_for (filePath : String) (fileBytes : List Nat) : String :=
  CACHE_DIR ++ ("/") ++ pyBasename filePath ++ ("_") ++ get_file_hash fileBytes ++ (".json")

/-- A file in the cache directory: either a JSON document that parses to a
value, or bytes that `json.load` rejects. -/
inductive CacheFile where
  | valid : JValue → CacheFile
  | corrupt : CacheFile

/-- The cache directory contents: path ↦ file. -/
abbrev CacheStore : Type := List (String × CacheFile)

/-- Find the file stored at a path. -/
def storeLookup (store : CacheStore) (p : String) : Option CacheFile :=
  ((store.find? (fun e => e.1 == p)).map (fun e => e.2))

/-- Model of `read_from_cache` (src/main.py 40-43): opening a missing path
raises `FileNotFoundError`; `json.load` on a corrupt file raises
`JSONDecodeError`; otherwise the parsed value is returned. -/
def read_from_cache (store : CacheStore) (cachePath : String) : Except PyErr JValue :=
  match storeLookup store cachePath with
  | none => .error .fileNotFound
  | some .corrupt => .error .jsonDecodeError
  | some (.valid v) => .ok v

/-- Model of `write_to_cache` (src/main.py 45-49): serializes the value at
the path, overwriting any previous file there.  `json.dump`/`json.load`
round-trip the JSON data model, so the stored file is `valid data`. -/
def write_to_cache (store : CacheStore) (cachePath : String) (data : JValue) : CacheStore :=
  (cachePath, CacheFile.valid data) :: store.filter (fun e => e.1 != cachePath)

/-! ## Extraction (`ocr_image` / `extract_content_from_pptx`, src/main.py 52-82) -/

/-- The OCR black box (`PIL.Image.open` + `pytesseract.image_to_string`):
image bytes to text, or an exception. -/
abbrev OcrFn : Type := List Nat → Except String String

/-- Model of `ocr_image` (src/main.py 52-58): any exception from decoding
or OCR is swallowed and becomes the empty string. -/
def ocr_image (ocrRaw : OcrFn) (imageBytes : List Nat) : String :=
  match ocrRaw imageBytes with
  | .ok s => s
  | .error _ => ("")

/-- Shape kinds distinguished by the source (`MSO_SHAPE_TYPE.PICTURE`
versus everything else). -/
inductive MsoShapeType where
  | PICTURE
  | OTHER
deriving DecidableEq

/-- A python-pptx shape as the extractor probes it: text-frame capability
with its text, shape type, and picture blob bytes. -/
structure Shape where
  has_text_frame : Bool
  text : String
  shape_type : MsoShapeType
  imageBlob : List Nat

/-- A python-pptx slide: ordered shapes plus the optional notes text. -/
structure Slide where
  shapes : List Shape
  has_notes_slide : Bool
  notesText : String

/-- The segments one shape contributes in the loop body of
`extract_content_from_pptx` (src/main.py 72-78): the text-frame text when
non-whitespace, then the marked OCR text when the shape is a picture and
OCR yields non-whitespace text.  The two `if` tests are independent, not
mutually exclusive. -/
def shape_segments (ocrRaw : OcrFn) (shape : Shape) : List String :=
  (if shape.has_text_frame && stripNonempty shape.text then [shape.text] else []) ++
  (if shape.shape_type = MsoShapeType.PICTURE then
     (let t := ocr_image ocrRaw shape.imageBlob
      if stripNonempty t then [("[Text from Image]:\n") ++ t] else [])
   else [])

/-- The `texts` list built for one slide (src/main.py 71-80): shape
segments in shape order, then the marked speaker notes when present and
non-whitespace. -/
def slide_texts (ocrRaw : OcrFn) (s : Slide) : List String :=
  (s.shapes.foldl (fun acc sh => acc ++ shape_segments ocrRaw sh) []) ++
  (if s.has_notes_slide && stripNonempty s.notesText then
     [("[Speaker Notes]:\n") ++ s.notesText]
   else [])

/-- One slide's corpus entry (src/main.py line 81): segments joined with
the fixed separator, possibly the empty string. -/
def slide_entry (ocrRaw : OcrFn) (s : Slide) : String :=
  String.intercalate ("\n---\n") (slide_texts ocrRaw s)

/-- The `enumerate` loop of `extract_content_from_pptx`: 1-based slide
numbers paired with entries, in document order. -/
def extractAux (ocrRaw : OcrFn) (i : Nat) : List Slide → List (Nat × String)
  | [] => []
  | s :: rest => (i + 1, slide_entry ocrRaw s) :: extractAux ocrRaw (i + 1) rest

/-- Model of `extract_content_from_pptx` (src/main.py 60-82) after the
file-existence check: the ordered slide-number ↦ entry mapping. -/
def extract_content_from_pptx (ocrRaw : OcrFn) (doc : List Slide) : List (Nat × String) :=
  extractAux ocrRaw 0 doc

/-! ## Analysis client (`analyze_with_gemini`, src/main.py 85-126) -/

/-- The Gemini black boxes: configuration plus model construction
(`genai.configure` / `GenerativeModel`), the single blocking request
(`model.generate_content`, returning `response.text`), and `json.loads`. -/
structure GeminiEnv where
  configure : Except String Unit
  generate : String → Except String String
  jsonParse : String → Option JValue

/-- The instruction text of the prompt literal (src/main.py 94-114),
transcribed with the doubled braces of the f-string already collapsed;
surrounding whitespace is abbreviated. -/
def geminiPromptText : String :=
  ("\nYou are an expert business analyst and proofreader. Your task is to perform a deep analysis of the following PowerPoint presentation content.\n") ++
  ("**Primary Objective:** Find all factual, numerical, and logical inconsistencies across the slides.\n") ++
  ("**Secondary Objective:** If text is extracted from an image of a chart or table, try to interpret its structure and data. For example, if you see numbers in a table, verify if their sum matches any stated totals. Report any mathematical errors.\n") ++
  ("**CRITICAL: You must format your entire response as a JSON object.** The root object should be a single key \"issues\" which contains a list of issue objects. Each issue object must have the following keys: \"type\", \"conflict\", and \"evidence\" (which is a list of strings).\n") ++
  ("Example of a valid JSON response format:\n\x7b\n  \"issues\": [\n    \x7b\n      \"type\": \"Numerical Inconsistency\",\n      \"conflict\": \"The total revenue stated on one slide does not match the sum of regional revenues on another.\",\n      \"evidence\": [\n        \"Slide 3 states: 'Total FY2024 Revenue: $10.2 Million'.\",\n        \"Slide 8 chart shows regional revenues summing to $9.8 Million.\"\n      ]\n    \x7d\n  ]\n\x7d\n") ++
  ("If you find no issues at all, return an empty list: \x7b\"issues\": []\x7d\nHere is the presentation content:\n")

/-- The slide-tagged corpus serialization (src/main.py line 115). -/
def fullTextOf (contentDict : List (Nat × String)) : String :=
  String.intercalate ("\n")
    (contentDict.map (fun p => ("--- Slide ") ++ toString p.1 ++ (" ---\n") ++ p.2))

/-- Model of `analyze_with_gemini` (src/main.py 85-126).  The second
component counts requests issued to the service.  Every failure mode maps
to the `{"error": ...}` variant; nothing is raised and nothing is retried. -/
def analyze_with_gemini (env : GeminiEnv) (contentDict : List (Nat × String)) :
    JValue × Nat :=
  match env.configure with
  | .error e => (.jobj [(("error"), .jstr (("Failed to configure Gemini API: ") ++ e))], 0)
  | .ok _ =>
    match env.generate (geminiPromptText ++ fullTextOf contentDict) with
    | .error e =>
      (.jobj [(("error"), .jstr (("An error occurred during the Gemini API call: ") ++ e))], 1)
    | .ok t =>
      let cleaned := ((pyStrip t).replace ("```json") ("")).replace ("```") ("")
      match env.jsonParse cleaned with
      | none =>
        (.jobj [(("error"), .jstr ("Failed to decode JSON from AI response. The model may have returned an invalid format."))], 1)
      | some v => (v, 1)

/-! ## Orchestrator (`main`, src/main.py 193-254), from the point where the
file path, caching toggle, and API key have been validated -/

/-- The inputs of one run: the target file (name, bytes, existence), the
caching toggle, the cache directory contents, the parsed document, and the
external black boxes. -/
structure RunEnv where
  filePath : String
  fileBytes : List Nat
  fileExists : Bool
  useCaching : Bool
  store : CacheStore
  doc : List Slide
  ocrRaw : OcrFn
  gemini : GeminiEnv

/-- How a run ends. -/
inductive RunOutcome where
  | exitFileNotFound
  | noContent
  | unexpectedError
  | reported : JValue → RunOutcome

/-- Whether the run ended on the "could not extract any content" branch. -/
def RunOutcome.isNoContent : RunOutcome → Bool
  | .noContent => true
  | _ => false

/-- Observable effects of one run. -/
structure RunResult where
  outcome : RunOutcome
  analyzeCalls : Nat
  store2 : CacheStore

/-- The cache-lookup phase of `main` (src/main.py 216-227): `None` when
caching is disabled, the path is absent (`os.path.exists` false), or the
read raises and is swallowed by the generic handler. -/
def cachedLookup (env : RunEnv) : Option JValue :=
  if env.useCaching then
    match storeLookup env.store (cache_path_for env.filePath env.fileBytes) with
    | some (.valid v) => some v
    | some .corrupt => none
    | none => none
  else none

/-- Model of `main` (src/main.py 214-254) up to report rendering.  The
cache branch exits on a missing file (`FileNotFoundError` from
`get_file_hash`); the extract branch exits on a missing file via
`extract_content_from_pptx`'s own check; an empty corpus mapping is falsy
and short-circuits before analysis; the cache write is guarded by
`use_caching and "error" not in analysis_result`, whose membership test can
itself raise and be caught by the surrounding handler. -/
def runMain (env : RunEnv) : RunResult :=
  let path := cache_path_for env.filePath env.fileBytes
  if env.useCaching && !env.fileExists then
    ⟨.exitFileNotFound, 0, env.store⟩
  else
    match cachedLookup env with
    | some v => ⟨.reported v, 0, env.store⟩
    | none =>
      if !env.fileExists then ⟨.exitFileNotFound, 0, env.store⟩
      else
        let content := extract_content_from_pptx env.ocrRaw env.doc
        if content.isEmpty then ⟨.noContent, 0, env.store⟩
        else
          let ar := analyze_with_gemini env.gemini content
          if env.useCaching then
            match pyContains ("error") ar.1 with
            | .error _ => ⟨.unexpectedError, 1, env.store⟩
            | .ok true => ⟨.reported ar.1, 1, env.store⟩
            | .ok false => ⟨.reported ar.1, 1, write_to_cache env.store path ar.1⟩
          else ⟨.reported ar.1, 1, env.store⟩

/-! ## Report renderers (`generate_report`, src/main.py 129-189, and
`generate_plain_text_report`, src/main.py 256-272) -/

/-- Output box width (src/main.py line 20). -/
def BOX_WIDTH : Nat := 90

/-- Colorama ANSI constants. -/
def Fore_RED : String := ("\x1b[31m")

/-- Colorama green. -/
def Fore_GREEN : String := ("\x1b[32m")

/-- Colorama yellow. -/
def Fore_YELLOW : String := ("\x1b[33m")

/-- Colorama cyan. -/
def Fore_CYAN : String := ("\x1b[36m")

/-- Colorama white. -/
def Fore_WHITE : String := ("\x1b[37m")

/-- Colorama bright style. -/
def Style_BRIGHT : String := ("\x1b[1m")

/-- Colorama normal style. -/
def Style_NORMAL : String := ("\x1b[22m")

/-- Colorama reset. -/
def Style_RESET_ALL : String := ("\x1b[0m")

/-- The error line printed by the decorated renderer (src/main.py 132). -/
def decErrorLine (e : JValue) : String :=
  Fore_RED ++ ("An error occurred:\n") ++ pyStr e

/-- Top border of the decorated header box (src/main.py 146). -/
def decTopLine : String :=
  ("\n") ++ Fore_CYAN ++ ("╔") ++ strRepeat ("═") (BOX_WIDTH - 2) ++ ("╗")

/-- Title row of the decorated header box (src/main.py 147-148). -/
def decTitleLine : String :=
  Fore_CYAN ++ ("║") ++ Style_BRIGHT ++
    pyCenter (" AI Inconsistency Analysis Report ") (BOX_WIDTH - 2) ++
    Style_NORMAL ++ ("║")

/-- Subtitle row with the issue count (src/main.py 149-151). -/
def decSubtitleLine (n : Nat) : String :=
  Fore_CYAN ++ ("║") ++ Fore_YELLOW ++
    pyCenter (("Found ") ++ toString n ++ (" potential issue(s) to review.")) (BOX_WIDTH - 2) ++
    Fore_CYAN ++ ("║")

/-- Bottom border of the decorated header box (src/main.py 152). -/
def decBottomLine : String :=
  Fore_CYAN ++ ("╚") ++ strRepeat ("═") (BOX_WIDTH - 2) ++ ("╝\n")

/-- The "no issues" success line (src/main.py 155). -/
def decGreenLine : String :=
  Fore_GREEN ++ ("✅ No inconsistencies were found in the presentation.\n")

/-- Per-issue dashed header (src/main.py 165-166); `i` is 0-based. -/
def decIssueHeaderLine (i : Nat) : String :=
  Fore_WHITE ++ Style_BRIGHT ++
    pyCenterWith ((" ISSUE #") ++ toString (i + 1) ++ (" ")) BOX_WIDTH ('-')

/-- The TYPE line (src/main.py 169-170); the field is f-string coerced. -/
def decTypeLine (t : JValue) : String :=
  Fore_YELLOW ++ Style_BRIGHT ++ ("TYPE:") ++ Style_RESET_ALL ++ (" ") ++ pyStr t

/-- The CONFLICT line prelude (src/main.py 173). -/
def decConflictHead : String :=
  Fore_RED ++ Style_BRIGHT ++ ("CONFLICT:") ++ Style_RESET_ALL ++ (" ")

/-- The EVIDENCE heading (src/main.py 180). -/
def decEvidenceHeadLine : String :=
  Fore_CYAN ++ Style_BRIGHT ++ ("EVIDENCE:") ++ Style_RESET_ALL

/-- The closing rule (src/main.py 189). -/
def decFinalLine : String := Fore_CYAN ++ strRepeat ("=") BOX_WIDTH

/-- A text argument to `textwrap.wrap`: anything but a string raises
(`AttributeError` from the string-method probing inside textwrap). -/
def asTextArg : JValue → Except PyErr String
  | .jstr s => .ok s
  | _ => .error .attributeError

/-- The evidence loop of the decorated renderer (src/main.py 181-186):
each entry is wrapped (raising on non-strings), indexed at 0 (raising on
whitespace-only entries), and printed as a bullet plus continuations. -/
def renderEvidenceDec : List JValue → Except PyErr (List String)
  | [] => .ok []
  | ev :: rest => do
    let s ← asTextArg ev
    let we := textwrapWrap s (BOX_WIDTH - 4)
    let h ← headE we
    let more ← renderEvidenceDec rest
    return (("  ") ++ Fore_WHITE ++ ("- ") ++ h) :: we.tail.map (fun l => ("    ") ++ l) ++ more

/-- The issue loop of the decorated renderer (src/main.py 159-187);
`i` is the 0-based `enumerate` counter. -/
def renderIssuesDec : Nat → List JValue → Except PyErr (List String)
  | _, [] => .ok []
  | i, issue :: rest => do
    let t ← pyGet issue ("type") (.jstr ("N/A"))
    let c ← pyGet issue ("conflict") (.jstr ("N/A"))
    let e ← pyGet issue ("evidence") (.jarr [])
    let cs ← asTextArg c
    let wc := textwrapWrap cs (BOX_WIDTH - 10 - 1)
    let h ← headE wc
    let evs ← pyIter e
    let evLines ← renderEvidenceDec evs
    let more ← renderIssuesDec (i + 1) rest
    return [decIssueHeaderLine i, decTypeLine t] ++
      ((decConflictHead ++ h) :: wc.tail.map (fun l => strRepeat (" ") 11 ++ l)) ++
      [decEvidenceHeadLine] ++ evLines ++ [("")] ++ more

/-- Model of `generate_report` (src/main.py 129-189): the sequence of
printed lines, or the Python exception that escapes. -/
def generate_report (d : JValue) : Except PyErr (List String) := do
  let hasErr ← pyContains ("error") d
  if hasErr then
    let e ← pyIndex d ("error")
    return [decErrorLine e]
  else
    let issues ← pyGet d ("issues") (.jarr [])
    let headLines ←
      if truthy issues then do
        let n ← pyLen issues
        pure [decTopLine, decTitleLine, decSubtitleLine n, decBottomLine]
      else pure [decTopLine, decTitleLine, decBottomLine]
    if !truthy issues then
      return headLines ++ [decGreenLine]
    else
      let items ← pyIter issues
      let issueLines ← renderIssuesDec 0 items
      return headLines ++ issueLines ++ [decFinalLine]

/-- The plain header line (src/main.py 264). -/
def plainHeaderLine (n : Nat) : String :=
  ("AI Inconsistency Analysis Report: Found ") ++ toString n ++ (" Issues\n") ++
    strRepeat ("=") 80

/-- The lines one issue contributes to the plain report
(src/main.py 266-271); every field is f-string coerced. -/
def plainIssueLines (i : Nat) (t c : JValue) (evs : List JValue) : List String :=
  [("\n--- ISSUE #") ++ toString (i + 1) ++ (" ---\n"),
   ("TYPE: ") ++ pyStr t,
   ("CONFLICT: ") ++ pyStr c,
   ("EVIDENCE:")] ++ evs.map (fun ev => ("  - ") ++ pyStr ev)

/-- The issue loop of the plain renderer (src/main.py 265-271). -/
def renderIssuesPlain : Nat → List JValue → Except PyErr (List String)
  | _, [] => .ok []
  | i, issue :: rest => do
    let t ← pyGet issue ("type") (.jstr ("N/A"))
    let c ← pyGet issue ("conflict") (.jstr ("N/A"))
    let e ← pyGet issue ("evidence") (.jarr [])
    let evs ← pyIter e
    let more ← renderIssuesPlain (i + 1) rest
    return plainIssueLines i t c evs ++ more

/-- Model of `generate_plain_text_report` (src/main.py 256-272): the
returned string, or the Python exception that escapes. -/
def generate_plain_text_report (d : JValue) : Except PyErr String := do
  let hasErr ← pyContains ("error") d
  if hasErr then
    let e ← pyIndex d ("error")
    return ("An error occurred:\n") ++ pyStr e
  else
    let issues ← pyGet d ("issues") (.jarr [])
    if !truthy issues then
      return ("✅ No inconsistencies were found in the presentation.")
    else
      let n ← pyLen issues
      let items ← pyIter issues
      let rest ← renderIssuesPlain 0 items
      return String.intercalate ("\n") (plainHeaderLine n :: rest)

/-! ## The logical report structure shared by the two renderers -/

/-- A defaulted field read from an issue object: the `.get(k, default)`
value both renderers use, with non-dict issues contributing the default. -/
def issueField (issue : JValue) (k : String) (dflt : JValue) : JValue :=
  match issue with
  | .jobj kvs => (jlookup kvs k).getD dflt
  | _ => dflt

/-- The logical content of one rendered issue: its defaulted type,
conflict, and evidence entries. -/
structure IssueView where
  itype : JValue
  conflict : JValue
  evidence : List JValue

/-- Modelled from the spec (section 4.5): the logical structure both output
modes render — either the error message, or the ordered issue list with the
default substitutions ("N/A" for a missing type or conflict, the empty
sequence for missing evidence) applied once, up front. -/
def viewOfIssue (issue : JValue) : IssueView :=
  ⟨issueField issue ("type") (.jstr ("N/A")),
   issueField issue ("conflict") (.jstr ("N/A")),
   match issueField issue ("evidence") (.jarr []) with
   | .jarr l => l
   | _ => []⟩

/-- The two logical report shapes: error variant, or issue enumeration. -/
inductive ReportView where
  | errorView : JValue → ReportView
  | issuesView : List IssueView → ReportView

/-- Modelled from the spec (section 4.5): the logical report of an analysis
result — the error branch when the `error` key is present, otherwise the
defaulted issue enumeration in order. -/
def reportView (d : JValue) : ReportView :=
  match d with
  | .jobj kvs =>
    match jlookup kvs ("error") with
    | some e => .errorView e
    | none =>
      .issuesView ((match jlookup kvs ("issues") with
        | some (.jarr l) => l
        | _ => []).map viewOfIssue)
  | _ => .issuesView []

/-- Decorated presentation of one evidence entry. -/
def decEvidenceBlock (ev : JValue) : List String :=
  let we := textwrapWrap (pyStr ev) (BOX_WIDTH - 4)
  (("  ") ++ Fore_WHITE ++ ("- ") ++ we.headD ("")) :: we.tail.map (fun l => ("    ") ++ l)

/-- Decorated presentation of one issue view (0-based ordinal `i`). -/
def decIssueBlock (i : Nat) (iv : IssueView) : List String :=
  let wc := textwrapWrap (pyStr iv.conflict) (BOX_WIDTH - 10 - 1)
  [decIssueHeaderLine i, decTypeLine iv.itype] ++
    ((decConflictHead ++ wc.headD ("")) :: wc.tail.map (fun l => strRepeat (" ") 11 ++ l)) ++
    [decEvidenceHeadLine] ++ iv.evidence.flatMap decEvidenceBlock ++ [("")]

/-- Decorated presentation of the issue views from ordinal `i` on. -/
def decIssueBlocks : Nat → List IssueView → List String
  | _, [] => []
  | i, iv :: ivs => decIssueBlock i iv ++ decIssueBlocks (i + 1) ivs

/-- Decorated presentation of a logical report. -/
def decoratedOfView : ReportView → List String
  | .errorView e => [decErrorLine e]
  | .issuesView [] => [decTopLine, decTitleLine, decBottomLine, decGreenLine]
  | .issuesView (iv :: ivs) =>
    [decTopLine, decTitleLine, decSubtitleLine (iv :: ivs).length, decBottomLine] ++
      decIssueBlocks 0 (iv :: ivs) ++ [decFinalLine]

/-- Plain presentation of one issue view. -/
def plainIssueBlock (i : Nat) (iv : IssueView) : List String :=
  plainIssueLines i iv.itype iv.conflict iv.evidence

/-- Plain presentation of the issue views from ordinal `i` on. -/
def plainIssueBlocks : Nat → List IssueView → List String
  | _, [] => []
  | i, iv :: ivs => plainIssueBlock i iv ++ plainIssueBlocks (i + 1) ivs

/-- Plain presentation of a logical report. -/
def plainOfView : ReportView → String
  | .errorView e => ("An error occurred:\n") ++ pyStr e
  | .issuesView [] => ("✅ No inconsistencies were found in the presentation.")
  | .issuesView (iv :: ivs) =>
    String.intercalate ("\n")
      (plainHeaderLine (iv :: ivs).length :: plainIssueBlocks 0 (iv :: ivs))

/-! ## Well-formedness domain on which both renderers succeed -/

/-- An evidence entry the decorated renderer can wrap: a string with some
non-whitespace character. -/
def goodEvidenceItem : JValue → Bool
  | .jstr s => stripNonempty s
  | _ => false

/-- An issue both renderers accept: a JSON object whose `conflict`, when
present, is a non-whitespace string (so `textwrap.wrap(...)[0]` exists) and
whose `evidence`, when present, is a list of non-whitespace strings. -/
def goodIssue : JValue → Bool
  | .jobj kvs =>
    (match jlookup kvs ("conflict") with
     | none => true
     | some (.jstr s) => stripNonempty s
     | some _ => false) &&
    (match jlookup kvs ("evidence") with
     | none => true
     | some (.jarr evs) => evs.all goodEvidenceItem
     | some _ => false)
  | _ => false

/-- An analysis result both renderers handle without raising: a JSON object
that either carries the `error` key, or whose `issues` key (when present)
holds a list of good issues. -/
def wellFormedResult : JValue → Bool
  | .jobj kvs =>
    if kvs.any (fun kv => kv.1 == ("error")) then true
    else
      match jlookup kvs ("issues") with
      | none => true
      | some (.jarr issues) => issues.all goodIssue
      | some _ => false
  | _ => false

/-- The error variant of an AnalysisResult: a JSON object carrying the
`error` key. -/
def isErrVariant : JValue → Bool
  | .jobj kvs => kvs.any (fun kv => kv.1 == ("error"))
  | _ => false

/-! ## The cache round-trip equality notion of the spec -/

/-- The issue list of an analysis result (empty for the error variant or
any non-conforming shape). -/
def issuesOf (v : JValue) : List JValue :=
  match v with
  | .jobj kvs =>
    match jlookup kvs ("issues") with
    | some (.jarr l) => l
    | _ => []
  | _ => []

/-- Modelled from the spec (section 8): two issues are deemed equal when
their defaulted type, conflict, and evidence agree. -/
def IssueEquiv (a b : JValue) : Prop :=
  issueField a ("type") (.jstr ("N/A")) = issueField b ("type") (.jstr ("N/A")) ∧
  issueField a ("conflict") (.jstr ("N/A")) = issueField b ("conflict") (.jstr ("N/A")) ∧
  issueField a ("evidence") (.jarr []) = issueField b ("evidence") (.jarr [])

/-- Modelled from the spec (section 8): results deemed equal by issue count
and by the type, conflict, and evidence of each corresponding issue. -/
def ResultEquiv (a b : JValue) : Prop :=
  (issuesOf a).length = (issuesOf b).length ∧
  List.Forall₂ IssueEquiv (issuesOf a) (issuesOf b)

/-! ## Infrastructure lemmas -/

/-- Bind on a successful `Except` computation. -/
theorem except_bind_ok {α β ε : Type} (x : α) (f : α → Except ε β) :
    ((Except.ok x : Except ε α) >>= f) = f x := rfl

/-- Bind on a failed `Except` computation. -/
theorem except_bind_error {α β ε : Type} (e : ε) (f : α → Except ε β) :
    ((Except.error e : Except ε α) >>= f) = Except.error e := rfl

/-- Pure in the `Except` monad is `ok`. -/
theorem except_pure_eq {α ε : Type} (x : α) :
    (pure x : Except ε α) = Except.ok x := rfl

/-- Greedy packing never yields an empty line list. -/
theorem packAux_ne_nil (width : Nat) :
    ∀ ws cur, packAux width cur ws ≠ [] := by
  intro ws
  induction ws with
  | nil => intro cur; simp [packAux]
  | cons w ws ih =>
    intro cur
    simp only [packAux]
    split
    · exact ih _
    · simp

/-- The word splitter yields a word whenever a non-whitespace character
remains or a word is being accumulated. -/
theorem pyWordsAux_ne_nil :
    ∀ l acc, (l.any (fun c => !pyIsSpaceChar c) || !acc.isEmpty) = true →
      pyWordsAux l acc ≠ [] := by
  intro l
  induction l with
  | nil =>
    intro acc h
    simp only [List.any_nil, Bool.false_or] at h
    simp [pyWordsAux, List.isEmpty_eq_false_iff_exists_mem] at h ⊢
    simp [h]
  | cons c cs ih =>
    intro acc h
    simp only [pyWordsAux]
    by_cases hc : pyIsSpaceChar c = true
    · simp only [hc, if_true]
      simp only [List.any_cons, hc, Bool.not_true, Bool.false_or] at h
      by_cases ha : acc.isEmpty = true
      · simp only [ha, if_true]
        apply ih
        simp only [ha, Bool.not_true, Bool.or_false] at h
        simp [h]
      · simp [ha]
    · simp only [Bool.not_eq_true] at hc
      simp only [hc, Bool.false_eq_true, if_false]
      apply ih
      simp

/-- The wrap model returns at least one line on any string with a
non-whitespace character: exactly the property `wrapped[0]` relies on. -/
theorem textwrapWrap_ne_nil (s : String) (width : Nat)
    (h : stripNonempty s = true) : textwrapWrap s width ≠ [] := by
  have hw : pyWords s ≠ [] := by
    apply pyWordsAux_ne_nil
    simp only [stripNonempty] at h
    simp [h]
  unfold textwrapWrap
  cases hpw : pyWords s with
  | nil => exact absurd hpw hw
  | cons w ws => exact packAux_ne_nil width ws w

/-- Indexing the head succeeds on a non-empty list and yields the
defaulted head. -/
theorem headE_cons (h : String) (t : List String) :
    headE (h :: t) = .ok ((h :: t).headD ("")) := rfl

/-- A key-membership test on an object agrees with lookup success. -/
theorem any_key_eq_lookup_isSome (kvs : List (String × JValue)) (k : String) :
    kvs.any (fun kv => kv.1 == k) = (jlookup kvs k).isSome := by
  induction kvs with
  | nil => simp [jlookup]
  | cons kv rest ih =>
    by_cases hk : (kv.1 == k) = true
    · simp [jlookup, List.find?, hk]
    · simp only [Bool.not_eq_true] at hk
      simp [jlookup, List.find?, hk] at ih ⊢
      exact ih

/-- The length of the `intercalate` accumulator never shrinks. -/
theorem intercalate_go_length (s : String) :
    ∀ l acc, acc.length ≤ (String.intercalate.go acc s l).length := by
  intro l
  induction l with
  | nil => intro acc; simp [String.intercalate.go]
  | cons a as ih =>
    intro acc
    calc acc.length ≤ (acc ++ s ++ a).length := by
          simp [String.length_append]; omega
      _ ≤ _ := ih (acc ++ s ++ a)

/-- Joining a non-empty line list whose head is non-empty yields a
non-empty string. -/
theorem intercalate_cons_length (s a : String) (l : List String) :
    a.length ≤ (String.intercalate s (a :: l)).length := by
  simpa [String.intercalate] using intercalate_go_length s l a

/-- On good evidence lists the decorated evidence loop succeeds and emits
exactly the per-entry presentation blocks. -/
theorem renderEvidenceDec_ok :
    ∀ evs, evs.all goodEvidenceItem = true →
      renderEvidenceDec evs = .ok (evs.flatMap decEvidenceBlock) := by
  intro evs
  induction evs with
  | nil => intro _; rfl
  | cons ev rest ih =>
    intro h
    simp only [List.all_cons, Bool.and_eq_true] at h
    obtain ⟨h1, h2⟩ := h
    cases ev with
    | jstr s =>
      simp only [goodEvidenceItem] at h1
      cases hw : textwrapWrap s (BOX_WIDTH - 4) with
      | nil => exact absurd hw (textwrapWrap_ne_nil s _ h1)
      | cons w t =>
        simp only [renderEvidenceDec, asTextArg, except_bind_ok, hw, headE, ih h2,
          except_pure_eq, List.flatMap_cons, decEvidenceBlock, pyStr,
          List.headD_cons, List.tail_cons]
    | jnull => simp [goodEvidenceItem] at h1
    | jbool b => simp [goodEvidenceItem] at h1
    | jnum n => simp [goodEvidenceItem] at h1
    | jarr l => simp [goodEvidenceItem] at h1
    | jobj kvs => simp [goodEvidenceItem] at h1

/-- On good issue lists the plain issue loop succeeds and emits exactly the
per-issue presentation blocks of the defaulted views. -/
theorem renderIssuesPlain_ok :
    ∀ l i, l.all goodIssue = true →
      renderIssuesPlain i l = .ok (plainIssueBlocks i (l.map viewOfIssue)) := by
  intro l
  induction l with
  | nil => intro i _; rfl
  | cons issue rest ih =>
    intro i h
    simp only [List.all_cons, Bool.and_eq_true] at h
    obtain ⟨h1, h2⟩ := h
    cases issue with
    | jobj kvs =>
      simp only [goodIssue, Bool.and_eq_true] at h1
      obtain ⟨-, hev⟩ := h1
      cases he : jlookup kvs ("evidence") with
      | none =>
        simp only [renderIssuesPlain, pyGet, except_bind_ok, he, Option.getD_none,
          Option.getD_some, pyIter, ih _ h2, except_pure_eq, List.map_cons,
          plainIssueBlocks, plainIssueBlock, viewOfIssue, issueField]
      | some v =>
        rw [he] at hev
        cases v with
        | jarr evs =>
          simp only [renderIssuesPlain, pyGet, except_bind_ok, he, Option.getD_none,
            Option.getD_some, pyIter, ih _ h2, except_pure_eq, List.map_cons,
            plainIssueBlocks, plainIssueBlock, viewOfIssue, issueField]
        | jnull => simp at hev
        | jbool b => simp at hev
        | jnum n => simp at hev
        | jstr s => simp at hev
        | jobj kvs2 => simp at hev
    | jnull => simp [goodIssue] at h1
    | jbool b => simp [goodIssue] at h1
    | jnum n => simp [goodIssue] at h1
    | jstr s => simp [goodIssue] at h1
    | jarr l2 => simp [goodIssue] at h1

/-- On good issue lists the decorated issue loop succeeds and emits exactly
the per-issue presentation blocks of the defaulted views. -/
theorem renderIssuesDec_ok :
    ∀ l i, l.all goodIssue = true →
      renderIssuesDec i l = .ok (decIssueBlocks i (l.map viewOfIssue)) := by
  intro l
  induction l with
  | nil => intro i _; rfl
  | cons issue rest ih =>
    intro i h
    simp only [List.all_cons, Bool.and_eq_true] at h
    obtain ⟨h1, h2⟩ := h
    cases issue with
    | jobj kvs =>
      simp only [goodIssue, Bool.and_eq_true] at h1
      obtain ⟨hconf, hev⟩ := h1
      obtain ⟨cs, hcs, hcsgood⟩ :
          ∃ cs, (jlookup kvs ("conflict")).getD (.jstr ("N/A")) = .jstr cs ∧
            stripNonempty cs = true := by
        cases hc : jlookup kvs ("conflict") with
        | none => exact ⟨("N/A"), rfl, by decide⟩
        | some v =>
          rw [hc] at hconf
          cases v with
          | jstr s => exact ⟨s, rfl, hconf⟩
          | jnull => simp at hconf
          | jbool b => simp at hconf
          | jnum n => simp at hconf
          | jarr l2 => simp at hconf
          | jobj kvs2 => simp at hconf
      cases hw : textwrapWrap cs (BOX_WIDTH - 10 - 1) with
      | nil => exact absurd hw (textwrapWrap_ne_nil cs _ hcsgood)
      | cons w t =>
        obtain ⟨evs, hevs, hevsgood⟩ :
            ∃ evs, (jlookup kvs ("evidence")).getD (.jarr []) = .jarr evs ∧
              evs.all goodEvidenceItem = true := by
          cases he : jlookup kvs ("evidence") with
          | none => exact ⟨[], rfl, rfl⟩
          | some v =>
            rw [he] at hev
            cases v with
            | jarr evs => exact ⟨evs, rfl, hev⟩
            | jnull => simp at hev
            | jbool b => simp at hev
            | jnum n => simp at hev
            | jstr s => simp at hev
            | jobj kvs2 => simp at hev
        simp only [renderIssuesDec, pyGet, except_bind_ok, hcs, hevs, asTextArg,
          hw, headE, pyIter, renderEvidenceDec_ok evs hevsgood, ih _ h2,
          except_pure_eq, List.map_cons, decIssueBlocks, decIssueBlock,
          viewOfIssue, issueField, pyStr, List.headD_cons, List.tail_cons]
    | jnull => simp [goodIssue] at h1
    | jbool b => simp [goodIssue] at h1
    | jnum n => simp [goodIssue] at h1
    | jstr s => simp [goodIssue] at h1
    | jarr l2 => simp [goodIssue] at h1

/-- On the well-formed domain the decorated renderer succeeds and renders
exactly the decorated presentation of the logical report. -/
theorem generate_report_wf (d : JValue) (h : wellFormedResult d = true) :
    generate_report d = .ok (decoratedOfView (reportView d)) := by
  cases d with
  | jobj kvs =>
    cases herr : kvs.any (fun kv => kv.1 == ("error")) with
    | true =>
      have hsome : (jlookup kvs ("error")).isSome = true := by
        rw [← any_key_eq_lookup_isSome]; exact herr
      obtain ⟨e, he⟩ := Option.isSome_iff_exists.mp hsome
      simp only [generate_report, pyContains, except_bind_ok, herr, if_true,
        pyIndex, he, except_pure_eq, reportView, decoratedOfView]
    | false =>
      have hnone : jlookup kvs ("error") = none := by
        rw [← Option.not_isSome_iff_eq_none, ← any_key_eq_lookup_isSome]
        simp [herr]
      simp only [wellFormedResult, herr, Bool.false_eq_true, if_false] at h
      cases hiss : jlookup kvs ("issues") with
      | none =>
        simp only [generate_report, pyContains, except_bind_ok, herr,
          Bool.false_eq_true, if_false, pyGet, hiss, Option.getD_none, truthy,
          List.isEmpty_nil, Bool.not_true, Bool.false_eq_true, except_pure_eq,
          reportView, hnone, decoratedOfView, List.map_nil]
        simp [decoratedOfView]
      | some v =>
        rw [hiss] at h
        cases v with
        | jarr l =>
          cases l with
          | nil =>
            simp only [generate_report, pyContains, except_bind_ok, herr,
              Bool.false_eq_true, if_false, pyGet, hiss, Option.getD_some, truthy,
              List.isEmpty_nil, Bool.not_true, except_pure_eq,
              reportView, hnone, List.map_nil]
            simp [decoratedOfView]
          | cons x xs =>
            simp only [generate_report, pyContains, except_bind_ok, herr,
              Bool.false_eq_true, if_false, pyGet, hiss, Option.getD_some, truthy,
              List.isEmpty_cons, Bool.not_false, if_true, pyLen, except_bind_ok,
              pyIter, renderIssuesDec_ok _ 0 h, except_pure_eq,
              reportView, hnone, List.map_cons]
            simp [decoratedOfView, List.length_map]
        | jnull => simp at h
        | jbool b => simp at h
        | jnum n => simp at h
        | jstr s => simp at h
        | jobj kvs2 => simp at h
  | jnull => simp [wellFormedResult] at h
  | jbool b => simp [wellFormedResult] at h
  | jnum n => simp [wellFormedResult] at h
  | jstr s => simp [wellFormedResult] at h
  | jarr l => simp [wellFormedResult] at h

/-- On the well-formed domain the plain renderer succeeds and renders
exactly the plain presentation of the logical report. -/
theorem generate_plain_wf (d : JValue) (h : wellFormedResult d = true) :
    generate_plain_text_report d = .ok (plainOfView (reportView d)) := by
  cases d with
  | jobj kvs =>
    cases herr : kvs.any (fun kv => kv.1 == ("error")) with
    | true =>
      have hsome : (jlookup kvs ("error")).isSome = true := by
        rw [← any_key_eq_lookup_isSome]; exact herr
      obtain ⟨e, he⟩ := Option.isSome_iff_exists.mp hsome
      simp only [generate_plain_text_report, pyContains, except_bind_ok, herr,
        if_true, pyIndex, he, except_pure_eq, reportView, plainOfView]
    | false =>
      have hnone : jlookup kvs ("error") = none := by
        rw [← Option.not_isSome_iff_eq_none, ← any_key_eq_lookup_isSome]
        simp [herr]
      simp only [wellFormedResult, herr, Bool.false_eq_true, if_false] at h
      cases hiss : jlookup kvs ("issues") with
      | none =>
        simp only [generate_plain_text_report, pyContains, except_bind_ok, herr,
          Bool.false_eq_true, if_false, pyGet, hiss, Option.getD_none, truthy,
          List.isEmpty_nil, Bool.not_true, except_pure_eq,
          reportView, hnone, List.map_nil]
        simp [plainOfView]
      | some v =>
        rw [hiss] at h
        cases v with
        | jarr l =>
          cases l with
          | nil =>
            simp only [generate_plain_text_report, pyContains, except_bind_ok,
              herr, Bool.false_eq_true, if_false, pyGet, hiss, Option.getD_some,
              truthy, List.isEmpty_nil, Bool.not_true, except_pure_eq,
              reportView, hnone, List.map_nil]
            simp [plainOfView]
          | cons x xs =>
            simp only [generate_plain_text_report, pyContains, except_bind_ok,
              herr, Bool.false_eq_true, if_false, pyGet, hiss, Option.getD_some,
              truthy, List.isEmpty_cons, Bool.not_false, if_true, pyLen,
              except_bind_ok, pyIter, renderIssuesPlain_ok _ 0 h, except_pure_eq,
              reportView, hnone, List.map_cons]
            simp [plainOfView, List.length_map]
        | jnull => simp at h
        | jbool b => simp at h
        | jnum n => simp at h
        | jstr s => simp at h
        | jobj kvs2 => simp at h
  | jnull => simp [wellFormedResult] at h
  | jbool b => simp [wellFormedResult] at h
  | jnum n => simp [wellFormedResult] at h
  | jstr s => simp [wellFormedResult] at h
  | jarr l => simp [wellFormedResult] at h

/-- Decorated presentations are never empty. -/
theorem decoratedOfView_ne_nil (v : ReportView) : decoratedOfView v ≠ [] := by
  cases v with
  | errorView e => simp [decoratedOfView]
  | issuesView l => cases l <;> simp [decoratedOfView]

/-- Plain presentations are never the empty string. -/
theorem plainOfView_ne_empty (v : ReportView) : plainOfView v ≠ ("") := by
  cases v with
  | errorView e =>
    intro heq
    have hl := congrArg String.length heq
    rw [plainOfView, String.length_append] at hl
    have h19 : (("An error occurred:\n") : String).length = 19 := by decide
    have h0 : (("") : String).length = 0 := by decide
    rw [h19, h0] at hl
    omega
  | issuesView l =>
    cases l with
    | nil => decide
    | cons iv ivs =>
      intro heq
      have hl := congrArg String.length heq
      have hle := intercalate_cons_length ("\n")
        (plainHeaderLine (iv :: ivs).length) (plainIssueBlocks 0 (iv :: ivs))
      rw [plainOfView] at hl
      have hp : 0 < (plainHeaderLine (iv :: ivs).length).length := by
        have h40 : 0 < (("AI Inconsistency Analysis Report: Found ") : String).length := by
          decide
        simp only [plainHeaderLine, String.length_append]
        omega
      have h0 : (("") : String).length = 0 := by decide
      rw [h0] at hl
      omega

/-- Sample well-formed analysis result used to witness the renderer
totality theorem. -/
def sampleResultA : JValue :=
  .jobj [(("issues"), .jarr [.jobj
    [(("type"), .jstr ("Numerical Inconsistency")),
     (("conflict"), .jstr ("Mismatch between totals")),
     (("evidence"), .jarr [.jstr ("Slide 1: $10M"), .jstr ("Slide 2: $9.8M")])]])]

/-- Sample error-variant analysis result used to witness the renderer
equivalence theorem. -/
def sampleResultB : JValue := .jobj [(("error"), .jstr ("boom"))]

/-- C1 (amended): on every analysis result in the well-formed domain — a
JSON object that either carries the `error` key or whose `issues` list
holds dict issues whose conflict (when present) is a non-whitespace string
and whose evidence entries (when present) are non-whitespace strings —
both the decorated and the plain renderer complete without raising and
produce a non-empty report.  As originally stated (totality over all
malformed inputs) the claim is false; see the counterexample. -/
theorem renderers_total_on_wellformed (d : JValue) (h : wellFormedResult d = true) :
    (∃ lines, generate_report d = .ok lines ∧ lines ≠ []) ∧
    (∃ s, generate_plain_text_report d = .ok s ∧ s ≠ ("")) :=
  ⟨⟨decoratedOfView (reportView d), generate_report_wf d h, decoratedOfView_ne_nil _⟩,
   ⟨plainOfView (reportView d), generate_plain_wf d h, plainOfView_ne_empty _⟩⟩

/-- C1 witness: the totality theorem applied at a concrete well-formed
result. -/
theorem renderers_total_on_wellformed_witness :
    (∃ lines, generate_report sampleResultA = .ok lines ∧ lines ≠ []) ∧
    (∃ s, generate_plain_text_report sampleResultA = .ok s ∧ s ≠ ("")) :=
  renderers_total_on_wellformed sampleResultA (by decide)

/-- C1 counterexample: on `{"issues": [{"conflict": ""}]}` — an issue with
an empty-string conflict — the decorated renderer raises `IndexError` at
`textwrap.wrap(conflict, ...)[0]`, so the renderer is not total over
malformed results. -/
theorem generate_report_raises_on_empty_conflict :
    generate_report (.jobj [(("issues"), .jarr [.jobj [(("conflict"), .jstr (""))]])]) =
      .error .indexError := rfl

/-- C8 (amended): on every analysis result in the well-formed domain the
two renderers enumerate the identical logical report — the same issues in
the same order with the same default substitutions ("N/A" for missing type
and conflict, empty sequence for missing evidence), as captured by the
shared `reportView`; each renderer is exactly a presentation of that view.
As originally stated (for every AnalysisResult) the claim is false; see
the counterexample. -/
theorem renderers_information_equivalent (d : JValue) (h : wellFormedResult d = true) :
    generate_report d = .ok (decoratedOfView (reportView d)) ∧
    generate_plain_text_report d = .ok (plainOfView (reportView d)) :=
  ⟨generate_report_wf d h, generate_plain_wf d h⟩

/-- C8 witness: the equivalence theorem applied at a concrete error-variant
result. -/
theorem renderers_information_equivalent_witness :
    generate_report sampleResultB = .ok (decoratedOfView (reportView sampleResultB)) ∧
    generate_plain_text_report sampleResultB = .ok (plainOfView (reportView sampleResultB)) :=
  renderers_information_equivalent sampleResultB (by decide)

/-- C8 counterexample: on an issue whose conflict is the number 5 the plain
renderer completes (coercing the field) while the decorated renderer raises
`AttributeError` inside `textwrap.wrap`, so the two projections do not
enumerate the same fields on every AnalysisResult. -/
theorem renderers_diverge_on_nonstring_conflict :
    generate_report (.jobj [(("issues"), .jarr [.jobj
        [(("type"), .jstr ("T")), (("conflict"), .jnum 5),
         (("evidence"), .jarr [.jstr ("E")])]])]) = .error .attributeError ∧
    (∃ s, generate_plain_text_report (.jobj [(("issues"), .jarr [.jobj
        [(("type"), .jstr ("T")), (("conflict"), .jnum 5),
         (("evidence"), .jarr [.jstr ("E")])]])]) = .ok s) :=
  ⟨rfl, ⟨_, rfl⟩⟩

/-! ## Corpus builder properties -/

/-- The slide numbers produced by the extraction loop are consecutive,
starting just above the loop counter. -/
theorem extractAux_map_fst (ocrRaw : OcrFn) :
    ∀ (doc : List Slide) (i : Nat),
      (extractAux ocrRaw i doc).map Prod.fst = List.range' (i + 1) doc.length := by
  intro doc
  induction doc with
  | nil => intro i; simp [extractAux, List.range']
  | cons s rest ih =>
    intro i
    simp [extractAux, List.range', ih (i + 1)]

/-- Positional lookup in the extraction output mirrors positional lookup in
the document. -/
theorem extractAux_get? (ocrRaw : OcrFn) :
    ∀ (doc : List Slide) (i j : Nat),
      (extractAux ocrRaw i doc).get? j =
        (doc.get? j).map (fun s => (i + j + 1, slide_entry ocrRaw s)) := by
  intro doc
  induction doc with
  | nil => intro i j; simp [extractAux]
  | cons s rest ih =>
    intro i j
    cases j with
    | zero => simp [extractAux]
    | succ j2 =>
      simp only [extractAux, List.get?]
      rw [show i + (j2 + 1) + 1 = (i + 1) + j2 + 1 by omega]
      exact ih (i + 1) j2

/-- A slide with no non-whitespace text shape, no picture-derived text, and
no non-whitespace notes, as in the claim. -/
def blankSlide (ocrRaw : OcrFn) (s : Slide) : Bool :=
  s.shapes.all (fun sh =>
    !(sh.has_text_frame && stripNonempty sh.text) &&
    !((sh.shape_type == MsoShapeType.PICTURE) &&
      stripNonempty (ocr_image ocrRaw sh.imageBlob))) &&
  !(s.has_notes_slide && stripNonempty s.notesText)

/-- A blank shape contributes no segments. -/
theorem shape_segments_of_blank (ocrRaw : OcrFn) (sh : Shape)
    (h : (!(sh.has_text_frame && stripNonempty sh.text) &&
      !((sh.shape_type == MsoShapeType.PICTURE) &&
        stripNonempty (ocr_image ocrRaw sh.imageBlob))) = true) :
    shape_segments ocrRaw sh = [] := by
  simp only [Bool.and_eq_true, Bool.not_eq_true', Bool.and_eq_false_iff] at h
  obtain ⟨h1, h2⟩ := h
  simp only [shape_segments]
  rcases h2 with h2 | h2
  · have hne : sh.shape_type ≠ MsoShapeType.PICTURE := by
      simpa using h2
    rcases h1 with h1 | h1 <;> simp [h1, hne]
  · rcases h1 with h1 | h1 <;> simp [h1, h2]

/-- A blank slide's entry is the empty string. -/
theorem slide_entry_of_blank (ocrRaw : OcrFn) (s : Slide)
    (h : blankSlide ocrRaw s = true) : slide_entry ocrRaw s = ("") := by
  simp only [blankSlide, Bool.and_eq_true] at h
  obtain ⟨hsh, hn⟩ := h
  rw [List.all_eq_true] at hsh
  have hfold : ∀ (l : List Shape), (∀ sh ∈ l,
      (!(sh.has_text_frame && stripNonempty sh.text) &&
        !((sh.shape_type == MsoShapeType.PICTURE) &&
          stripNonempty (ocr_image ocrRaw sh.imageBlob))) = true) →
      l.foldl (fun acc sh => acc ++ shape_segments ocrRaw sh) [] = [] := by
    intro l
    induction l with
    | nil => intro _; rfl
    | cons sh rest ih =>
      intro hl
      simp only [List.foldl_cons, List.nil_append,
        shape_segments_of_blank ocrRaw sh (hl sh (by simp))]
      exact ih (fun x hx => hl x (by simp [hx]))
  rw [Bool.not_eq_true'] at hn
  simp [slide_entry, slide_texts, hfold s.shapes hsh, hn, String.intercalate]

/-- C6 (confirmed): the corpus builder emits exactly one entry per slide
with 1-based contiguous indices in document order, and every slide with no
non-whitespace text shape, no picture-derived text, and no non-whitespace
notes gets the empty string as its entry — present, never absent. -/
theorem corpus_one_entry_per_slide (ocrRaw : OcrFn) (doc : List Slide) :
    ((extract_content_from_pptx ocrRaw doc).map Prod.fst = List.range' 1 doc.length) ∧
    (∀ j s, doc.get? j = some s → blankSlide ocrRaw s = true →
      (extract_content_from_pptx ocrRaw doc).get? j = some (j + 1, (""))) := by
  constructor
  · simpa using extractAux_map_fst ocrRaw doc 0
  · intro j s hj hb
    rw [extract_content_from_pptx, extractAux_get? ocrRaw doc 0 j, hj]
    simp [slide_entry_of_blank ocrRaw s hb]

/-- C6 witness: a one-slide document with an empty slide yields the single
entry `(1, "")`. -/
theorem corpus_one_entry_per_slide_witness :
    (extract_content_from_pptx (fun _ => .ok ("")) [⟨[], false, ("")⟩]).get? 0 =
      some (1, ("")) :=
  (corpus_one_entry_per_slide (fun _ => .ok ("")) [⟨[], false, ("")⟩]).2 0
    ⟨[], false, ("")⟩ rfl (by decide)

/-- C7 (confirmed): when the OCR black box raises on some image bytes, the
extractor returns the empty string for that picture and never propagates
the exception — extraction still yields one entry for every slide of every
document. -/
theorem ocr_failure_yields_empty (ocrRaw : OcrFn) (bytes : List Nat) (e : String)
    (h : ocrRaw bytes = .error e) :
    ocr_image ocrRaw bytes = ("") ∧
    (∀ doc : List Slide, (extract_content_from_pptx ocrRaw doc).map Prod.fst =
      List.range' 1 doc.length) := by
  constructor
  · simp [ocr_image, h]
  · intro doc
    simpa using extractAux_map_fst ocrRaw doc 0

/-- C7 witness: a concrete always-raising OCR engine yields the empty
string. -/
theorem ocr_failure_yields_empty_witness :
    ocr_image (fun _ => .error ("bad image")) [0, 1] = ("") ∧
    (∀ doc : List Slide,
      (extract_content_from_pptx (fun _ => .error ("bad image")) doc).map Prod.fst =
        List.range' 1 doc.length) :=
  ocr_failure_yields_empty (fun _ => .error ("bad image")) [0, 1] ("bad image") rfl

/-- C10 (amended): a shape with a non-whitespace text frame that is also
classified as a picture and whose OCR text is non-whitespace contributes
exactly two segments — the text-frame text first, then the marked OCR
text — because the two kind checks are independent `if` statements.  When
OCR yields only whitespace the same shape contributes one segment; see the
counterexample for the original unconditional two-segment claim. -/
theorem text_and_picture_shape_two_segments (ocrRaw : OcrFn) (sh : Shape)
    (h1 : sh.has_text_frame = true) (h2 : stripNonempty sh.text = true)
    (h3 : sh.shape_type = MsoShapeType.PICTURE)
    (h4 : stripNonempty (ocr_image ocrRaw sh.imageBlob) = true) :
    shape_segments ocrRaw sh =
      [sh.text, ("[Text from Image]:\n") ++ ocr_image ocrRaw sh.imageBlob] := by
  simp [shape_segments, h1, h2, h3, h4]

/-- C10 witness: both branches fire on a concrete text-carrying picture
shape with successful OCR. -/
theorem text_and_picture_shape_two_segments_witness :
    shape_segments (fun _ => .ok ("OCR text")) ⟨true, ("Title"), .PICTURE, [7]⟩ =
      [("Title"), ("[Text from Image]:\n") ++ ocr_image (fun _ => .ok ("OCR text")) [7]] :=
  text_and_picture_shape_two_segments (fun _ => .ok ("OCR text"))
    ⟨true, ("Title"), .PICTURE, [7]⟩ rfl (by decide) rfl (by decide)

/-- C10 counterexample: a picture shape with a non-whitespace text frame
whose OCR yields the empty string contributes one segment, not two, so the
unconditional claim fails. -/
theorem picture_with_blank_ocr_single_segment :
    shape_segments (fun _ => .ok ("")) ⟨true, ("Hi"), .PICTURE, []⟩ = [("Hi")] ∧
    stripNonempty ("Hi") = true :=
  ⟨rfl, by decide⟩

/-! ## Orchestrator properties -/

/-- C2 (amended): on the analysis path (existing file, no usable cache
entry) the run prints the "no content" message and skips the analysis call
exactly when the document has zero slides — the truthiness test
`if not content` only fires on an empty mapping.  A document with at least
one slide invokes the analysis client even when every slide's entry is the
empty string; the original claim fails there, see the counterexample. -/
theorem no_content_iff_zero_slides (env : RunEnv)
    (hf : env.fileExists = true) (hc : cachedLookup env = none) :
    (env.doc = [] →
      (runMain env).outcome.isNoContent = true ∧ (runMain env).analyzeCalls = 0) ∧
    (env.doc ≠ [] → (runMain env).analyzeCalls = 1) := by
  constructor
  · intro hd
    simp [runMain, hf, hc, hd, extract_content_from_pptx, extractAux,
      RunOutcome.isNoContent]
  · intro hd
    obtain ⟨s, rest, hd2⟩ : ∃ s rest, env.doc = s :: rest := by
      cases henv : env.doc with
      | nil => exact absurd henv hd
      | cons s rest => exact ⟨s, rest, rfl⟩
    simp only [runMain, hf, Bool.not_true, Bool.and_false, Bool.false_eq_true,
      if_false, hc, hd2, extract_content_from_pptx, extractAux,
      List.isEmpty_cons]
    split
    · split <;> rfl
    · rfl

/-- Run inputs for the C2 witness: an existing file whose document has zero
slides, caching disabled. -/
def envC2W : RunEnv :=
  ⟨("deck.pptx"), [], true, false, [], [], fun _ => .ok (""),
   ⟨.error ("no key"), fun _ => .error ("down"), fun _ => none⟩⟩

/-- C2 witness: the theorem applied to a concrete zero-slide run. -/
theorem no_content_iff_zero_slides_witness :
    (runMain envC2W).outcome.isNoContent = true ∧ (runMain envC2W).analyzeCalls = 0 :=
  (no_content_iff_zero_slides envC2W rfl rfl).1 rfl

/-- Run inputs for the C2 counterexample: one slide with no content at all,
caching disabled. -/
def envC2 : RunEnv :=
  ⟨("deck.pptx"), [], true, false, [], [⟨[], false, ("")⟩], fun _ => .ok (""),
   ⟨.error ("no key"), fun _ => .error ("down"), fun _ => none⟩⟩

/-- C2 counterexample: a document with one slide whose corpus entry is the
empty string — an entirely empty corpus — still invokes the analysis
client and does not end in the "no content" branch, because a non-empty
dict of empty strings is truthy. -/
theorem analysis_called_on_all_empty_corpus :
    slide_entry envC2.ocrRaw ⟨[], false, ("")⟩ = ("") ∧
    (runMain envC2).analyzeCalls = 1 ∧
    (runMain envC2).outcome.isNoContent = false :=
  ⟨rfl, rfl, rfl⟩

/-- A membership test that returns `False` certifies the value is not the
error variant. -/
theorem pyContains_ok_false_not_err (v : JValue)
    (h : pyContains ("error") v = .ok false) : isErrVariant v = false := by
  cases v with
  | jobj kvs =>
    simp only [pyContains, Except.ok.injEq] at h
    simpa only [isErrVariant] using h
  | jarr xs => rfl
  | jstr s => rfl
  | jnull => simp [pyContains] at h
  | jbool b => simp [pyContains] at h
  | jnum n => simp [pyContains] at h

/-- C3 (confirmed): every cache entry present after a run was either
already present before it, or was written on this run — which happens only
with caching enabled and only for a value that is not the error variant.
In particular a store holding only successful results still holds only
successful results after any run. -/
theorem cache_persists_only_success (env : RunEnv) (p : String) (cf : CacheFile)
    (hmem : (p, cf) ∈ (runMain env).store2) :
    (p, cf) ∈ env.store ∨
      (env.useCaching = true ∧
        ∃ v, cf = CacheFile.valid v ∧ isErrVariant v = false) := by
  have hmem2 := hmem
  simp only [runMain] at hmem2
  cases h1 : env.useCaching && !env.fileExists with
  | true => simp only [h1, if_true] at hmem2; exact .inl hmem2
  | false =>
    simp only [h1, Bool.false_eq_true, if_false] at hmem2
    cases hcl : cachedLookup env with
    | some v => simp only [hcl] at hmem2; exact .inl hmem2
    | none =>
      simp only [hcl] at hmem2
      cases h2 : (!env.fileExists) with
      | true => simp only [h2, if_true] at hmem2; exact .inl hmem2
      | false =>
        simp only [h2, Bool.false_eq_true, if_false] at hmem2
        cases h3 : (extract_content_from_pptx env.ocrRaw env.doc).isEmpty with
        | true => simp only [h3, if_true] at hmem2; exact .inl hmem2
        | false =>
          simp only [h3, Bool.false_eq_true, if_false] at hmem2
          cases huc : env.useCaching with
          | false =>
            simp only [huc, Bool.false_eq_true, if_false] at hmem2
            exact .inl hmem2
          | true =>
            simp only [huc, if_true] at hmem2
            cases hpc : pyContains ("error")
                (analyze_with_gemini env.gemini
                  (extract_content_from_pptx env.ocrRaw env.doc)).1 with
            | error e => simp only [hpc] at hmem2; exact .inl hmem2
            | ok b =>
              cases b with
              | true => simp only [hpc] at hmem2; exact .inl hmem2
              | false =>
                simp only [hpc, write_to_cache, List.mem_cons] at hmem2
                cases hmem2 with
                | inl heq =>
                  rw [Prod.mk.injEq] at heq
                  exact .inr ⟨rfl, _, heq.2, pyContains_ok_false_not_err _ hpc⟩
                | inr hmem3 => exact .inl (List.mem_of_mem_filter hmem3)

/-- Run inputs for the C3 witness: a store holding one successful entry and
a run that writes nothing. -/
def envC3 : RunEnv :=
  ⟨("deck.pptx"), [], true, false, [(("k"), CacheFile.valid (.jarr []))], [],
   fun _ => .ok (""),
   ⟨.error ("no key"), fun _ => .error ("down"), fun _ => none⟩⟩

/-- C3 witness: the invariant applied to a concrete run and entry. -/
theorem cache_persists_only_success_witness :
    (("k"), CacheFile.valid (.jarr [])) ∈ envC3.store ∨
      (envC3.useCaching = true ∧
        ∃ v, CacheFile.valid (.jarr []) = CacheFile.valid v ∧ isErrVariant v = false) :=
  cache_persists_only_success envC3 ("k") (CacheFile.valid (.jarr [])) (List.Mem.head _)

/-- C4 (confirmed): writing a successful result under a key and reading the
same key back returns the stored value, which is deemed equal to the
original by issue count and by the defaulted type, conflict, and evidence
of each issue. -/
theorem cache_round_trip (store : CacheStore) (k : String) (v : JValue)
    (hsuc : isErrVariant v = false) :
    read_from_cache (write_to_cache store k v) k = .ok v ∧ ResultEquiv v v := by
  refine ⟨?_, rfl, List.forall₂_same.mpr (fun x _ => ⟨rfl, rfl, rfl⟩)⟩
  simp [read_from_cache, write_to_cache, storeLookup, List.find?]

/-- C4 witness: a concrete round trip through a real cache key. -/
theorem cache_round_trip_witness :
    read_from_cache
        (write_to_cache [] (cache_path_for ("deck.pptx") [1, 2, 3])
          (.jobj [(("issues"), .jarr [])]))
        (cache_path_for ("deck.pptx") [1, 2, 3]) =
      .ok (.jobj [(("issues"), .jarr [])]) ∧
    ResultEquiv (.jobj [(("issues"), .jarr [])]) (.jobj [(("issues"), .jarr [])]) :=
  cache_round_trip [] (cache_path_for ("deck.pptx") [1, 2, 3])
    (.jobj [(("issues"), .jarr [])]) (by decide)

/-! ## Analysis client properties -/

/-- The failure modes of `analyze_with_gemini`: configuration failure,
transport failure on the single request, or a response body that is not
valid JSON after stripping the code-fence artifacts. -/
def analyzeFailed (env : GeminiEnv) (contentDict : List (Nat × String)) : Bool :=
  match env.configure with
  | .error _ => true
  | .ok _ =>
    match env.generate (geminiPromptText ++ fullTextOf contentDict) with
    | .error _ => true
    | .ok t =>
      (env.jsonParse (((pyStrip t).replace ("```json") ("")).replace ("```") (""))).isNone

/-- C9 (confirmed): the analysis client issues at most one request per
invocation (no internal retry) and maps every failure mode to the
`{"error": ...}` variant instead of raising; its embedding is a total
function, so nothing propagates to the orchestrator. -/
theorem analyze_never_raises_single_request (env : GeminiEnv)
    (cd : List (Nat × String)) :
    (analyze_with_gemini env cd).2 ≤ 1 ∧
    (analyzeFailed env cd = true →
      isErrVariant (analyze_with_gemini env cd).1 = true) := by
  simp only [analyze_with_gemini, analyzeFailed]
  cases hc : env.configure with
  | error e => simp [hc, isErrVariant]
  | ok u =>
    cases hg : env.generate (geminiPromptText ++ fullTextOf cd) with
    | error e => simp [hc, hg, isErrVariant]
    | ok t =>
      cases hp : env.jsonParse (((pyStrip t).replace ("```json") ("")).replace ("```") ("")) with
      | none => simp [hc, hg, hp, isErrVariant]
      | some v => simp [hc, hg, hp]

/-- C9 witness: a configuration failure at a concrete environment yields
the error variant through the theorem. -/
theorem analyze_never_raises_single_request_witness :
    isErrVariant (analyze_with_gemini
      ⟨.error ("missing key"), fun _ => .ok (""), fun _ => none⟩ []).1 = true :=
  (analyze_never_raises_single_request
    ⟨.error ("missing key"), fun _ => .ok (""), fun _ => none⟩ []).2 (by decide)
